import Mathlib

/-!
# SecureVote camera client — verification of the specification

Shallow embedding of `src/static/js/camera.js` (the whole repository's
logic): camera start/stop, frame capture, and the three submit flows
(`captureAndRegister`, `captureAndVerifyVote`, `captureAndLogin`).

The browser environment (DOM elements, `getUserMedia`, `video.play`,
`canvas.toDataURL`, `fetch`) is modelled as an explicit `Env` of external
results, and the script's mutable state (the DOM text, the global
`streamRef` slot) as an explicit `St` threaded through each operation.
Observable side effects — console logging, track stops, network requests,
scheduled redirects, status writes — are recorded in an event trace so
that ordering properties can be stated as facts about the trace list.
-/

namespace SecureVote

/-- A browser exception (e.g. a rejected promise); only its `message`
is observable to the script. -/
structure JsError where
  message : String
deriving Repr, DecidableEq

/-- A `MediaStreamTrack`.  Per the platform behaviour of
`MediaStreamTrack.stop()`, stopping an already-ended track is a no-op,
so the track carries its ended state. -/
structure Track where
  tid : Nat
  stopped : Bool
deriving Repr, DecidableEq

/-- A `MediaStream`: an identity and its list of tracks. -/
structure MediaStream where
  sid : Nat
  tracks : List Track
deriving Repr, DecidableEq

/-- The `<video>` element: the dimensions it currently reports. -/
structure VideoElem where
  videoWidth : Nat
  videoHeight : Nat
deriving Repr, DecidableEq

/-- The `<canvas>` element: its current bitmap dimensions. -/
structure CanvasElem where
  width : Nat
  height : Nat
deriving Repr, DecidableEq

/-- The DOM surface the script consumes: optional `video` and `canvas`
elements, and the `status` text node (absent elements are `none` /
`statusPresent = false`). -/
structure Dom where
  video : Option VideoElem
  canvas : Option CanvasElem
  statusPresent : Bool
  statusText : String
deriving Repr, DecidableEq

/-- Observable side effects, in the order they occur. -/
inductive Event where
  | consoleError (msg : String)
  | statusSet (msg : String)
  | bindStream (sid : Nat)
  | videoPlay
  | trackStop (tid : Nat)
  | netRequest (endpoint : String) (image : String)
  | scheduleRedirect (url : String) (delayMs : Nat)
deriving Repr, DecidableEq

/-- The script's state: the DOM, the global `streamRef` slot
(`let streamRef = null` at top of file), and the event trace. -/
structure St where
  dom : Dom
  streamRef : Option MediaStream
  trace : List Event
deriving Repr, DecidableEq

/-- A parsed JSON response body, as the script reads it: the truthiness
of `data.ok` and the `data.error` field (absent = `none`). -/
structure JsonData where
  ok : Bool
  error : Option String
deriving Repr, DecidableEq

/-- A `fetch` response: `response.ok` (HTTP 2xx) and the result of
`response.json()` (which throws on an unparsable body). -/
structure HttpResponse where
  ok : Bool
  jsonBody : Except JsError JsonData
deriving Repr

/-- The external environment: availability and result of each browser
API the script awaits. -/
structure Env where
  mediaDevicesAvailable : Bool
  getUserMedia : Except JsError MediaStream
  playResult : Except JsError Unit
  toDataURL : Nat → Nat → String
  fetchResult : String → String → Except JsError HttpResponse

/-- `if (status) status.textContent = msg` — writes the status text only
when the `status` element exists. -/
def setStatus (s : St) (msg : String) : St :=
  if s.dom.statusPresent then
    { s with dom := { s.dom with statusText := msg },
             trace := s.trace ++ [Event.statusSet msg] }
  else s

/-- `console.error(msg)` — appends a console diagnostic to the trace. -/
def logError (s : St) (msg : String) : St :=
  { s with trace := s.trace ++ [Event.consoleError msg] }

/-- `track.stop()` — platform semantics: ends the track, a no-op when
the track has already ended. -/
def Track.stopTrack (t : Track) : Track × List Event :=
  if t.stopped then (t, [])
  else ({ t with stopped := true }, [Event.trackStop t.tid])

/-- `stream.getTracks().forEach(track => track.stop())` over a track list:
the tracks after the pass, paired with the emitted stop events. -/
def stopTracks : List Track → List Track × List Event
  | [] => ([], [])
  | t :: rest =>
    (t.stopTrack.1 :: (stopTracks rest).1, t.stopTrack.2 ++ (stopTracks rest).2)

/-- `stopCamera()` from `camera.js`: if `streamRef` holds a stream, stop
all of its tracks.  The slot itself is not cleared or reassigned: it
still references the same stream (same `sid`, tracks now ended). -/
def stopCamera (s : St) : St :=
  match s.streamRef with
  | none => s
  | some stream =>
    { s with streamRef := some { stream with tracks := (stopTracks stream.tracks).1 },
             trace := s.trace ++ (stopTracks stream.tracks).2 }

/-- `startCamera()` from `camera.js`.  Missing `video` element: logged
diagnostic and return.  Capture API unavailable: status warning and
return.  Otherwise `streamRef = await getUserMedia(...)` (assigned
before `video.play()`), bind, play, and report; any thrown error is
caught, logged, and shown as `"❌ Camera error: " + error.message`. -/
def startCamera (env : Env) (s : St) : St :=
  match s.dom.video with
  | none => logError s "Video element not found."
  | some _ =>
    if !env.mediaDevicesAvailable then
      setStatus s "Camera not supported in this browser."
    else
      match env.getUserMedia with
      | Except.error e =>
        setStatus (logError s e.message) ("❌ Camera error: " ++ e.message)
      | Except.ok stream =>
        let s1 : St := { s with streamRef := some stream,
                                trace := s.trace ++ [Event.bindStream stream.sid] }
        match env.playResult with
        | Except.error e =>
          setStatus (logError s1 e.message) ("❌ Camera error: " ++ e.message)
        | Except.ok _ =>
          let s2 : St := { s1 with trace := s1.trace ++ [Event.videoPlay] }
          setStatus s2 "✅ Camera started successfully."

/-- `captureImageBase64()` from `camera.js`: returns `null` when the
`video` or `canvas` element is missing, or when the video reports a zero
width or height (`if (!width || !height) return null`).  Otherwise sizes
the canvas to the video, draws the frame, and returns the JPEG data URI
(`canvas.toDataURL("image/jpeg", 0.9)`, supplied by the environment). -/
def captureImageBase64 (env : Env) (s : St) : Option String × St :=
  match s.dom.video, s.dom.canvas with
  | some v, some _ =>
    if v.videoWidth = 0 ∨ v.videoHeight = 0 then (none, s)
    else
      ( some (env.toDataURL v.videoWidth v.videoHeight),
        { s with dom := { s.dom with
            canvas := some { width := v.videoWidth, height := v.videoHeight } } } )
  | _, _ => (none, s)

/-- JavaScript `a || b` on the optional `data.error` string: the
fallback is used when the field is absent or the empty string (falsy). -/
def jsOrElse (e : Option String) (fallback : String) : String :=
  match e with
  | none => fallback
  | some str => if str = "" then fallback else str

/-- JavaScript truthiness test `!image` on the capture result: true for
`null` and for the empty string. -/
def imageMissing : Option String → Bool
  | none => true
  | some img => img = ""

/-- `captureAndRegister()` from `camera.js`. -/
def captureAndRegister (env : Env) (s : St) : St :=
  let image := (captureImageBase64 env s).1
  let s1 := (captureImageBase64 env s).2
  if imageMissing image then
    setStatus s1 "⚠ Please start camera first."
  else
    let img := image.getD ""
    let s2 := setStatus s1 "Uploading face for registration..."
    let s3 : St := { s2 with trace := s2.trace ++ [Event.netRequest "/api/register-face" img] }
    match env.fetchResult "/api/register-face" img with
    | Except.error e =>
      setStatus (logError s3 e.message) "❌ Server error during registration."
    | Except.ok response =>
      match response.jsonBody with
      | Except.error e =>
        setStatus (logError s3 e.message) "❌ Server error during registration."
      | Except.ok data =>
        if !response.ok || !data.ok then
          setStatus s3 ("❌ " ++ jsOrElse data.error "Registration failed.")
        else
          let s4 := setStatus s3 "✅ Registration successful! Redirecting..."
          let s5 := stopCamera s4
          { s5 with trace := s5.trace ++ [Event.scheduleRedirect "/elections" 1200] }

/-- `captureAndVerifyVote()` from `camera.js`. -/
def captureAndVerifyVote (env : Env) (s : St) : St :=
  let image := (captureImageBase64 env s).1
  let s1 := (captureImageBase64 env s).2
  if imageMissing image then
    setStatus s1 "⚠ Please start camera first."
  else
    let img := image.getD ""
    let s2 := setStatus s1 "Verifying face..."
    let s3 : St := { s2 with trace := s2.trace ++ [Event.netRequest "/api/vote-face-verify" img] }
    match env.fetchResult "/api/vote-face-verify" img with
    | Except.error e =>
      setStatus (logError s3 e.message) "❌ Server error during verification."
    | Except.ok response =>
      match response.jsonBody with
      | Except.error e =>
        setStatus (logError s3 e.message) "❌ Server error during verification."
      | Except.ok data =>
        if !response.ok || !data.ok then
          setStatus s3 ("❌ " ++ jsOrElse data.error "Verification failed.")
        else
          let s4 := setStatus s3 "✅ Face verified successfully!"
          stopCamera s4

/-- `captureAndLogin()` from `camera.js`. -/
def captureAndLogin (env : Env) (s : St) : St :=
  let image := (captureImageBase64 env s).1
  let s1 := (captureImageBase64 env s).2
  if imageMissing image then
    setStatus s1 "⚠ Please start camera first."
  else
    let img := image.getD ""
    let s2 := setStatus s1 "Verifying face for login..."
    let s3 : St := { s2 with trace := s2.trace ++ [Event.netRequest "/api/login-face-verify" img] }
    match env.fetchResult "/api/login-face-verify" img with
    | Except.error e =>
      setStatus (logError s3 e.message) "❌ Server error during login."
    | Except.ok response =>
      match response.jsonBody with
      | Except.error e =>
        setStatus (logError s3 e.message) "❌ Server error during login."
      | Except.ok data =>
        if !response.ok || !data.ok then
          setStatus s3 ("❌ " ++ jsOrElse data.error "Login failed.")
        else
          let s4 := setStatus s3 "✅ Login successful! Redirecting..."
          let s5 := stopCamera s4
          { s5 with trace := s5.trace ++ [Event.scheduleRedirect "/elections" 1000] }

/-- The identity of the stream held in the global `streamRef` slot, if any. -/
def streamId (s : St) : Option Nat :=
  s.streamRef.map MediaStream.sid

/-! ## Basic lemmas about the state transformers -/

lemma streamRef_setStatus (s : St) (m : String) :
    (setStatus s m).streamRef = s.streamRef := by
  unfold setStatus; split <;> rfl

lemma streamRef_logError (s : St) (m : String) :
    (logError s m).streamRef = s.streamRef := rfl

lemma setStatus_trace (s : St) (m : String) :
    (setStatus s m).trace =
      s.trace ++ (if s.dom.statusPresent then [Event.statusSet m] else []) := by
  unfold setStatus; split <;> simp_all

lemma setStatus_statusText (s : St) (m : String) (h : s.dom.statusPresent = true) :
    (setStatus s m).dom.statusText = m := by
  simp [setStatus, h]

lemma setStatus_statusPresent (s : St) (m : String) :
    (setStatus s m).dom.statusPresent = s.dom.statusPresent := by
  unfold setStatus; split <;> rfl

lemma streamRef_capture (env : Env) (s : St) :
    (captureImageBase64 env s).2.streamRef = s.streamRef := by
  unfold captureImageBase64
  split
  · split <;> rfl
  · rfl

lemma trace_capture (env : Env) (s : St) :
    (captureImageBase64 env s).2.trace = s.trace := by
  unfold captureImageBase64
  split
  · split <;> rfl
  · rfl

lemma statusPresent_capture (env : Env) (s : St) :
    (captureImageBase64 env s).2.dom.statusPresent = s.dom.statusPresent := by
  unfold captureImageBase64
  split
  · split <;> rfl
  · rfl

lemma stopTracks_idem (ts : List Track) :
    stopTracks (stopTracks ts).1 = ((stopTracks ts).1, []) := by
  induction ts with
  | nil => rfl
  | cons t rest ih =>
    by_cases h : t.stopped <;> simp [stopTracks, Track.stopTrack, h, ih]

lemma stopCamera_idem (s : St) : stopCamera (stopCamera s) = stopCamera s := by
  cases h : s.streamRef with
  | none => simp [stopCamera, h]
  | some stream => simp [stopCamera, h, stopTracks_idem]

lemma streamId_setStatus (s : St) (m : String) :
    streamId (setStatus s m) = streamId s := by
  simp [streamId, streamRef_setStatus]

lemma streamId_logError (s : St) (m : String) :
    streamId (logError s m) = streamId s := rfl

lemma streamId_stopCamera (s : St) : streamId (stopCamera s) = streamId s := by
  cases h : s.streamRef <;> simp [stopCamera, streamId, h]

lemma streamId_trace_update (s : St) (t : List Event) :
    streamId { s with trace := t } = streamId s := rfl

lemma streamId_capture (env : Env) (s : St) :
    streamId (captureImageBase64 env s).2 = streamId s := by
  simp [streamId, streamRef_capture]

lemma streamId_captureAndRegister (env : Env) (s : St) :
    streamId (captureAndRegister env s) = streamId s := by
  simp only [captureAndRegister]
  repeat' split
  all_goals
    simp only [streamId_trace_update, streamId_stopCamera, streamId_setStatus,
      streamId_logError, streamId_capture]

lemma streamId_captureAndVerifyVote (env : Env) (s : St) :
    streamId (captureAndVerifyVote env s) = streamId s := by
  simp only [captureAndVerifyVote]
  repeat' split
  all_goals
    simp only [streamId_trace_update, streamId_stopCamera, streamId_setStatus,
      streamId_logError, streamId_capture]

lemma streamId_captureAndLogin (env : Env) (s : St) :
    streamId (captureAndLogin env s) = streamId s := by
  simp only [captureAndLogin]
  repeat' split
  all_goals
    simp only [streamId_trace_update, streamId_stopCamera, streamId_setStatus,
      streamId_logError, streamId_capture]

/-! ## Reduction lemmas for the capture and submit paths -/

lemma capture_success (env : Env) (s : St) (v : VideoElem) (c0 : CanvasElem) (img : String)
    (hv : s.dom.video = some v) (hc : s.dom.canvas = some c0)
    (hw : v.videoWidth ≠ 0) (hh : v.videoHeight ≠ 0)
    (himg : env.toDataURL v.videoWidth v.videoHeight = img) :
    captureImageBase64 env s =
      (some img,
       { s with dom := { s.dom with
           canvas := some { width := v.videoWidth, height := v.videoHeight } } }) := by
  simp [captureImageBase64, hv, hc, hw, hh, himg]

lemma captureAndRegister_success
    (env : Env) (s : St) (v : VideoElem) (c0 : CanvasElem) (img : String)
    (stream : MediaStream) (resp : HttpResponse) (data : JsonData)
    (hv : s.dom.video = some v) (hc : s.dom.canvas = some c0)
    (hw : v.videoWidth ≠ 0) (hh : v.videoHeight ≠ 0)
    (himg : env.toDataURL v.videoWidth v.videoHeight = img) (hne : img ≠ "")
    (hst : s.dom.statusPresent = true)
    (hsr : s.streamRef = some stream)
    (hf : env.fetchResult "/api/register-face" img = Except.ok resp)
    (hj : resp.jsonBody = Except.ok data)
    (hok : resp.ok = true) (hdok : data.ok = true) :
    captureAndRegister env s =
      { dom := { video := s.dom.video,
                 canvas := some { width := v.videoWidth, height := v.videoHeight },
                 statusPresent := s.dom.statusPresent,
                 statusText := "✅ Registration successful! Redirecting..." },
        streamRef := some { sid := stream.sid, tracks := (stopTracks stream.tracks).1 },
        trace := s.trace ++
          [Event.statusSet "Uploading face for registration...",
           Event.netRequest "/api/register-face" img,
           Event.statusSet "✅ Registration successful! Redirecting..."] ++
          (stopTracks stream.tracks).2 ++
          [Event.scheduleRedirect "/elections" 1200] } := by
  simp [captureAndRegister, capture_success env s v c0 img hv hc hw hh himg,
    imageMissing, hne, setStatus, hst, hf, hj, hok, hdok, stopCamera, hsr]

lemma captureAndVerifyVote_success
    (env : Env) (s : St) (v : VideoElem) (c0 : CanvasElem) (img : String)
    (stream : MediaStream) (resp : HttpResponse) (data : JsonData)
    (hv : s.dom.video = some v) (hc : s.dom.canvas = some c0)
    (hw : v.videoWidth ≠ 0) (hh : v.videoHeight ≠ 0)
    (himg : env.toDataURL v.videoWidth v.videoHeight = img) (hne : img ≠ "")
    (hst : s.dom.statusPresent = true)
    (hsr : s.streamRef = some stream)
    (hf : env.fetchResult "/api/vote-face-verify" img = Except.ok resp)
    (hj : resp.jsonBody = Except.ok data)
    (hok : resp.ok = true) (hdok : data.ok = true) :
    captureAndVerifyVote env s =
      { dom := { video := s.dom.video,
                 canvas := some { width := v.videoWidth, height := v.videoHeight },
                 statusPresent := s.dom.statusPresent,
                 statusText := "✅ Face verified successfully!" },
        streamRef := some { sid := stream.sid, tracks := (stopTracks stream.tracks).1 },
        trace := s.trace ++
          [Event.statusSet "Verifying face...",
           Event.netRequest "/api/vote-face-verify" img,
           Event.statusSet "✅ Face verified successfully!"] ++
          (stopTracks stream.tracks).2 } := by
  simp [captureAndVerifyVote, capture_success env s v c0 img hv hc hw hh himg,
    imageMissing, hne, setStatus, hst, hf, hj, hok, hdok, stopCamera, hsr]

lemma captureAndLogin_success
    (env : Env) (s : St) (v : VideoElem) (c0 : CanvasElem) (img : String)
    (stream : MediaStream) (resp : HttpResponse) (data : JsonData)
    (hv : s.dom.video = some v) (hc : s.dom.canvas = some c0)
    (hw : v.videoWidth ≠ 0) (hh : v.videoHeight ≠ 0)
    (himg : env.toDataURL v.videoWidth v.videoHeight = img) (hne : img ≠ "")
    (hst : s.dom.statusPresent = true)
    (hsr : s.streamRef = some stream)
    (hf : env.fetchResult "/api/login-face-verify" img = Except.ok resp)
    (hj : resp.jsonBody = Except.ok data)
    (hok : resp.ok = true) (hdok : data.ok = true) :
    captureAndLogin env s =
      { dom := { video := s.dom.video,
                 canvas := some { width := v.videoWidth, height := v.videoHeight },
                 statusPresent := s.dom.statusPresent,
                 statusText := "✅ Login successful! Redirecting..." },
        streamRef := some { sid := stream.sid, tracks := (stopTracks stream.tracks).1 },
        trace := s.trace ++
          [Event.statusSet "Verifying face for login...",
           Event.netRequest "/api/login-face-verify" img,
           Event.statusSet "✅ Login successful! Redirecting..."] ++
          (stopTracks stream.tracks).2 ++
          [Event.scheduleRedirect "/elections" 1000] } := by
  simp [captureAndLogin, capture_success env s v c0 img hv hc hw hh himg,
    imageMissing, hne, setStatus, hst, hf, hj, hok, hdok, stopCamera, hsr]

lemma captureAndRegister_jsonError
    (env : Env) (s : St) (v : VideoElem) (c0 : CanvasElem) (img : String)
    (resp : HttpResponse) (e : JsError)
    (hv : s.dom.video = some v) (hc : s.dom.canvas = some c0)
    (hw : v.videoWidth ≠ 0) (hh : v.videoHeight ≠ 0)
    (himg : env.toDataURL v.videoWidth v.videoHeight = img) (hne : img ≠ "")
    (hst : s.dom.statusPresent = true)
    (hf : env.fetchResult "/api/register-face" img = Except.ok resp)
    (hj : resp.jsonBody = Except.error e) :
    captureAndRegister env s =
      { dom := { video := s.dom.video,
                 canvas := some { width := v.videoWidth, height := v.videoHeight },
                 statusPresent := s.dom.statusPresent,
                 statusText := "❌ Server error during registration." },
        streamRef := s.streamRef,
        trace := s.trace ++
          [Event.statusSet "Uploading face for registration...",
           Event.netRequest "/api/register-face" img,
           Event.consoleError e.message,
           Event.statusSet "❌ Server error during registration."] } := by
  simp [captureAndRegister, capture_success env s v c0 img hv hc hw hh himg,
    imageMissing, hne, setStatus, hst, hf, hj, logError]

lemma captureAndRegister_domainError
    (env : Env) (s : St) (v : VideoElem) (c0 : CanvasElem) (img : String)
    (resp : HttpResponse) (data : JsonData)
    (hv : s.dom.video = some v) (hc : s.dom.canvas = some c0)
    (hw : v.videoWidth ≠ 0) (hh : v.videoHeight ≠ 0)
    (himg : env.toDataURL v.videoWidth v.videoHeight = img) (hne : img ≠ "")
    (hst : s.dom.statusPresent = true)
    (hf : env.fetchResult "/api/register-face" img = Except.ok resp)
    (hj : resp.jsonBody = Except.ok data)
    (hcond : (!resp.ok || !data.ok) = true) :
    captureAndRegister env s =
      { dom := { video := s.dom.video,
                 canvas := some { width := v.videoWidth, height := v.videoHeight },
                 statusPresent := s.dom.statusPresent,
                 statusText := "❌ " ++ jsOrElse data.error "Registration failed." },
        streamRef := s.streamRef,
        trace := s.trace ++
          [Event.statusSet "Uploading face for registration...",
           Event.netRequest "/api/register-face" img,
           Event.statusSet ("❌ " ++ jsOrElse data.error "Registration failed.")] } := by
  simp [captureAndRegister, capture_success env s v c0 img hv hc hw hh himg,
    imageMissing, hne, setStatus, hst, hf, hj, hcond]

lemma captureAndVerifyVote_domainError
    (env : Env) (s : St) (v : VideoElem) (c0 : CanvasElem) (img : String)
    (resp : HttpResponse) (data : JsonData)
    (hv : s.dom.video = some v) (hc : s.dom.canvas = some c0)
    (hw : v.videoWidth ≠ 0) (hh : v.videoHeight ≠ 0)
    (himg : env.toDataURL v.videoWidth v.videoHeight = img) (hne : img ≠ "")
    (hst : s.dom.statusPresent = true)
    (hf : env.fetchResult "/api/vote-face-verify" img = Except.ok resp)
    (hj : resp.jsonBody = Except.ok data)
    (hcond : (!resp.ok || !data.ok) = true) :
    captureAndVerifyVote env s =
      { dom := { video := s.dom.video,
                 canvas := some { width := v.videoWidth, height := v.videoHeight },
                 statusPresent := s.dom.statusPresent,
                 statusText := "❌ " ++ jsOrElse data.error "Verification failed." },
        streamRef := s.streamRef,
        trace := s.trace ++
          [Event.statusSet "Verifying face...",
           Event.netRequest "/api/vote-face-verify" img,
           Event.statusSet ("❌ " ++ jsOrElse data.error "Verification failed.")] } := by
  simp [captureAndVerifyVote, capture_success env s v c0 img hv hc hw hh himg,
    imageMissing, hne, setStatus, hst, hf, hj, hcond]

lemma captureAndLogin_domainError
    (env : Env) (s : St) (v : VideoElem) (c0 : CanvasElem) (img : String)
    (resp : HttpResponse) (data : JsonData)
    (hv : s.dom.video = some v) (hc : s.dom.canvas = some c0)
    (hw : v.videoWidth ≠ 0) (hh : v.videoHeight ≠ 0)
    (himg : env.toDataURL v.videoWidth v.videoHeight = img) (hne : img ≠ "")
    (hst : s.dom.statusPresent = true)
    (hf : env.fetchResult "/api/login-face-verify" img = Except.ok resp)
    (hj : resp.jsonBody = Except.ok data)
    (hcond : (!resp.ok || !data.ok) = true) :
    captureAndLogin env s =
      { dom := { video := s.dom.video,
                 canvas := some { width := v.videoWidth, height := v.videoHeight },
                 statusPresent := s.dom.statusPresent,
                 statusText := "❌ " ++ jsOrElse data.error "Login failed." },
        streamRef := s.streamRef,
        trace := s.trace ++
          [Event.statusSet "Verifying face for login...",
           Event.netRequest "/api/login-face-verify" img,
           Event.statusSet ("❌ " ++ jsOrElse data.error "Login failed.")] } := by
  simp [captureAndLogin, capture_success env s v c0 img hv hc hw hh himg,
    imageMissing, hne, setStatus, hst, hf, hj, hcond]

/-- Every event emitted by a `stopTracks` pass is a track-stop event. -/
lemma stopTracks_events (ts : List Track) :
    ∀ e ∈ (stopTracks ts).2, ∃ i, e = Event.trackStop i := by
  induction ts with
  | nil => intro e he; simp [stopTracks] at he
  | cons t rest ih =>
    intro e he
    by_cases h : t.stopped
    · simp [stopTracks, Track.stopTrack, h] at he
      exact ih e he
    · simp [stopTracks, Track.stopTrack, h] at he
      rcases he with he | he
      · exact ⟨t.tid, he⟩
      · exact ih e he

/-! ## Concrete values used by witnesses and counterexamples -/

/-- A concrete two-track live stream. -/
def streamW : MediaStream :=
  { sid := 1, tracks := [{ tid := 10, stopped := false }, { tid := 11, stopped := false }] }

/-- A benign concrete environment. -/
def envW : Env :=
  { mediaDevicesAvailable := true
    getUserMedia := Except.ok streamW
    playResult := Except.ok ()
    toDataURL := fun _ _ => "data:image/jpeg;base64,QQ=="
    fetchResult := fun _ _ => Except.error { message := "network down" } }

/-- A state with all three DOM elements present and no stream held. -/
def stNone : St :=
  { dom := { video := some { videoWidth := 64, videoHeight := 48 },
             canvas := some { width := 0, height := 0 },
             statusPresent := true, statusText := "" },
    streamRef := none, trace := [] }

/-- A state whose video reports 0×0 dimensions. -/
def stZero : St :=
  { dom := { video := some { videoWidth := 0, videoHeight := 0 },
             canvas := some { width := 0, height := 0 },
             statusPresent := true, statusText := "" },
    streamRef := none, trace := [] }

/-- A state with no `video` element in the DOM. -/
def stNoVideo : St :=
  { dom := { video := none,
             canvas := some { width := 0, height := 0 },
             statusPresent := true, statusText := "" },
    streamRef := none, trace := [] }

/-- A state with no `canvas` element in the DOM. -/
def stNoCanvas : St :=
  { dom := { video := some { videoWidth := 64, videoHeight := 48 },
             canvas := none,
             statusPresent := true, statusText := "" },
    streamRef := none, trace := [] }

/-- A ready state: all elements present, non-zero video dimensions, a
live stream held in the slot. -/
def stLive : St :=
  { dom := { video := some { videoWidth := 64, videoHeight := 48 },
             canvas := some { width := 0, height := 0 },
             statusPresent := true, statusText := "" },
    streamRef := some streamW, trace := [] }

/-- An all-green server response. -/
def respOkW : HttpResponse :=
  { ok := true, jsonBody := Except.ok { ok := true, error := none } }

/-- Environment in which every browser call succeeds. -/
def envOkW : Env :=
  { mediaDevicesAvailable := true
    getUserMedia := Except.ok streamW
    playResult := Except.ok ()
    toDataURL := fun _ _ => "data:image/jpeg;base64,QQ=="
    fetchResult := fun _ _ => Except.ok respOkW }

/-- An HTTP 500 response whose body cannot be parsed as JSON. -/
def resp500W : HttpResponse :=
  { ok := false, jsonBody := Except.error { message := "Unexpected token" } }

/-- Environment whose fetches yield the unparsable HTTP 500 response. -/
def env500W : Env :=
  { envOkW with fetchResult := fun _ _ => Except.ok resp500W }

/-- A domain-error body `{ok: false, error: "No match"}`. -/
def dataErrW : JsonData := { ok := false, error := some "No match" }

/-- A parsable response carrying the domain error. -/
def respErrW : HttpResponse := { ok := true, jsonBody := Except.ok dataErrW }

/-- Environment whose fetches yield the domain-error response. -/
def envErrW : Env :=
  { envOkW with fetchResult := fun _ _ => Except.ok respErrW }

/-- Environment in which the stream is acquired but `video.play()` fails. -/
def envPlayFail : Env :=
  { envOkW with playResult := Except.error { message := "play failed" } }

/-! ## Claim theorems -/

/-- What each submit flow does when `captureImageBase64` yields no usable
image: the only new event is the warning status write (when the status
element exists) — in particular no network request and no redirect — the
stream slot is untouched, and the status text becomes the warning. -/
def abortsWithWarning (s s2 : St) : Prop :=
  s2.trace = s.trace ++
    (if s.dom.statusPresent then [Event.statusSet "⚠ Please start camera first."] else []) ∧
  s2.streamRef = s.streamRef ∧
  (s.dom.statusPresent = true → s2.dom.statusText = "⚠ Please start camera first.")

lemma abortsWithWarning_setStatus (env : Env) (s : St) :
    abortsWithWarning s
      (setStatus (captureImageBase64 env s).2 "⚠ Please start camera first.") := by
  refine ⟨?_, ?_, ?_⟩
  · rw [setStatus_trace, trace_capture, statusPresent_capture]
  · rw [streamRef_setStatus, streamRef_capture]
  · intro hp
    exact setStatus_statusText _ _ (by rw [statusPresent_capture]; exact hp)

/-- Claim C1: whenever `captureImageBase64()` yields no image (null or the
empty string), each of the three submit operations issues no network
request, sets the status text to the warning, and returns without sending
anything (its only trace event is the status write; the stream slot is
unchanged). -/
theorem submit_no_capture_c1 (env : Env) (s : St)
    (h : imageMissing (captureImageBase64 env s).1 = true) :
    abortsWithWarning s (captureAndRegister env s) ∧
    abortsWithWarning s (captureAndVerifyVote env s) ∧
    abortsWithWarning s (captureAndLogin env s) := by
  refine ⟨?_, ?_, ?_⟩
  · simp only [captureAndRegister, h, if_pos]
    exact abortsWithWarning_setStatus env s
  · simp only [captureAndVerifyVote, h, if_pos]
    exact abortsWithWarning_setStatus env s
  · simp only [captureAndLogin, h, if_pos]
    exact abortsWithWarning_setStatus env s

theorem submit_no_capture_c1_witness :
    imageMissing (captureImageBase64 envW stNoVideo).1 = true ∧
    abortsWithWarning stNoVideo (captureAndRegister envW stNoVideo) :=
  ⟨rfl, (submit_no_capture_c1 envW stNoVideo rfl).1⟩

/-- Claim C3: `stopCamera()` is idempotent — the second of two consecutive
calls changes nothing (so in particular adds no duplicate track-stop
events to the trace) — and it is a no-op when no stream is held. -/
theorem stopCamera_c3 (s : St) :
    stopCamera (stopCamera s) = stopCamera s ∧
    (s.streamRef = none → stopCamera s = s) := by
  refine ⟨stopCamera_idem s, fun h => ?_⟩
  simp [stopCamera, h]

theorem stopCamera_c3_witness :
    stNone.streamRef = none ∧ stopCamera stNone = stNone :=
  ⟨rfl, (stopCamera_c3 stNone).2 rfl⟩

/-- Claim C8: `captureImageBase64()` returns `null` whenever the video
reports zero width or height (in particular at 0×0), and a frame is only
ever produced when the video element exists and reports non-zero width
and non-zero height. -/
theorem captureImageBase64_c8 (env : Env) (s : St) :
    (∀ v, s.dom.video = some v → v.videoWidth = 0 ∨ v.videoHeight = 0 →
      (captureImageBase64 env s).1 = none) ∧
    (∀ img, (captureImageBase64 env s).1 = some img →
      ∃ v, s.dom.video = some v ∧ v.videoWidth ≠ 0 ∧ v.videoHeight ≠ 0) := by
  constructor
  · intro v hv hdim
    cases hc : s.dom.canvas <;> simp [captureImageBase64, hv, hc, hdim]
  · intro img himg
    rcases hv : s.dom.video with _ | v
    · simp [captureImageBase64, hv] at himg
    · rcases hc : s.dom.canvas with _ | c
      · simp [captureImageBase64, hv, hc] at himg
      · by_cases hdim : v.videoWidth = 0 ∨ v.videoHeight = 0
        · simp [captureImageBase64, hv, hc, hdim] at himg
        · push_neg at hdim
          exact ⟨v, rfl, hdim.1, hdim.2⟩

theorem captureImageBase64_c8_witness :
    stZero.dom.video = some { videoWidth := 0, videoHeight := 0 } ∧
    (captureImageBase64 envW stZero).1 = none :=
  ⟨rfl, (captureImageBase64_c8 envW stZero).1 _ rfl (Or.inl rfl)⟩

/-- Claim C10: the global `streamRef` slot is only ever (re)assigned by
`startCamera`.  `stopCamera` stops the held tracks but preserves the slot
and the identity of the stream it references (after `stopCamera` the slot
still references the now-stopped stream); `captureImageBase64` leaves the
slot untouched; and the three submit flows preserve the held stream's
identity as well. -/
theorem streamRef_only_startCamera_c10 (env : Env) (s : St) :
    streamId (stopCamera s) = streamId s ∧
    (captureImageBase64 env s).2.streamRef = s.streamRef ∧
    streamId (captureAndRegister env s) = streamId s ∧
    streamId (captureAndVerifyVote env s) = streamId s ∧
    streamId (captureAndLogin env s) = streamId s :=
  ⟨streamId_stopCamera s, streamRef_capture env s,
   streamId_captureAndRegister env s, streamId_captureAndVerifyVote env s,
   streamId_captureAndLogin env s⟩

/-- Claim C2: on an `{ok: true}` response, both redirecting flows
(`captureAndRegister`, `captureAndLogin`) emit all of the stream's
track-stop events strictly before the `scheduleRedirect` event: the
resulting trace is exactly the prior trace, the status/network events,
then the stop events, and only then the scheduled redirect — so the
stream's stop is invoked before the redirect is scheduled (and hence
before it can fire). -/
theorem stop_before_redirect_c2
    (env : Env) (s : St) (v : VideoElem) (c0 : CanvasElem) (img : String)
    (stream : MediaStream) (resp : HttpResponse) (data : JsonData)
    (hv : s.dom.video = some v) (hc : s.dom.canvas = some c0)
    (hw : v.videoWidth ≠ 0) (hh : v.videoHeight ≠ 0)
    (himg : env.toDataURL v.videoWidth v.videoHeight = img) (hne : img ≠ "")
    (hst : s.dom.statusPresent = true)
    (hsr : s.streamRef = some stream)
    (hfr : env.fetchResult "/api/register-face" img = Except.ok resp)
    (hfl : env.fetchResult "/api/login-face-verify" img = Except.ok resp)
    (hj : resp.jsonBody = Except.ok data)
    (hok : resp.ok = true) (hdok : data.ok = true) :
    (captureAndRegister env s).trace =
      s.trace ++
        [Event.statusSet "Uploading face for registration...",
         Event.netRequest "/api/register-face" img,
         Event.statusSet "✅ Registration successful! Redirecting..."] ++
        (stopTracks stream.tracks).2 ++
        [Event.scheduleRedirect "/elections" 1200] ∧
    (captureAndLogin env s).trace =
      s.trace ++
        [Event.statusSet "Verifying face for login...",
         Event.netRequest "/api/login-face-verify" img,
         Event.statusSet "✅ Login successful! Redirecting..."] ++
        (stopTracks stream.tracks).2 ++
        [Event.scheduleRedirect "/elections" 1000] := by
  constructor
  · simp [captureAndRegister_success env s v c0 img stream resp data
      hv hc hw hh himg hne hst hsr hfr hj hok hdok]
  · simp [captureAndLogin_success env s v c0 img stream resp data
      hv hc hw hh himg hne hst hsr hfl hj hok hdok]

theorem stop_before_redirect_c2_witness :
    (captureAndRegister envOkW stLive).trace =
      stLive.trace ++
        [Event.statusSet "Uploading face for registration...",
         Event.netRequest "/api/register-face" "data:image/jpeg;base64,QQ==",
         Event.statusSet "✅ Registration successful! Redirecting..."] ++
        (stopTracks streamW.tracks).2 ++
        [Event.scheduleRedirect "/elections" 1200] ∧
    (captureAndLogin envOkW stLive).trace =
      stLive.trace ++
        [Event.statusSet "Verifying face for login...",
         Event.netRequest "/api/login-face-verify" "data:image/jpeg;base64,QQ==",
         Event.statusSet "✅ Login successful! Redirecting..."] ++
        (stopTracks streamW.tracks).2 ++
        [Event.scheduleRedirect "/elections" 1000] :=
  stop_before_redirect_c2 envOkW stLive
    { videoWidth := 64, videoHeight := 48 } { width := 0, height := 0 }
    "data:image/jpeg;base64,QQ==" streamW respOkW { ok := true, error := none }
    rfl rfl (by decide) (by decide) rfl (by decide) rfl rfl rfl rfl rfl rfl rfl

/-- Claim C5: when the submit to `/api/register-face` gets an HTTP 500
response whose body fails to parse as JSON, the status text becomes the
generic server-error message, `stopCamera` is not invoked (the trace
gains no track-stop event — only the status writes, the request, and the
console diagnostic), and the stream slot is unchanged. -/
theorem register_transport_error_c5
    (env : Env) (s : St) (v : VideoElem) (c0 : CanvasElem) (img : String)
    (resp : HttpResponse) (e : JsError)
    (hv : s.dom.video = some v) (hc : s.dom.canvas = some c0)
    (hw : v.videoWidth ≠ 0) (hh : v.videoHeight ≠ 0)
    (himg : env.toDataURL v.videoWidth v.videoHeight = img) (hne : img ≠ "")
    (hst : s.dom.statusPresent = true)
    (hf : env.fetchResult "/api/register-face" img = Except.ok resp)
    (_h500 : resp.ok = false)
    (hj : resp.jsonBody = Except.error e) :
    (captureAndRegister env s).dom.statusText = "❌ Server error during registration." ∧
    (captureAndRegister env s).streamRef = s.streamRef ∧
    (captureAndRegister env s).trace =
      s.trace ++
        [Event.statusSet "Uploading face for registration...",
         Event.netRequest "/api/register-face" img,
         Event.consoleError e.message,
         Event.statusSet "❌ Server error during registration."] := by
  have h := captureAndRegister_jsonError env s v c0 img resp e
    hv hc hw hh himg hne hst hf hj
  exact ⟨by simp [h], by simp [h], by simp [h]⟩

theorem register_transport_error_c5_witness :
    (captureAndRegister env500W stLive).dom.statusText =
      "❌ Server error during registration." ∧
    (captureAndRegister env500W stLive).streamRef = stLive.streamRef ∧
    (captureAndRegister env500W stLive).trace =
      stLive.trace ++
        [Event.statusSet "Uploading face for registration...",
         Event.netRequest "/api/register-face" "data:image/jpeg;base64,QQ==",
         Event.consoleError "Unexpected token",
         Event.statusSet "❌ Server error during registration."] :=
  register_transport_error_c5 env500W stLive
    { videoWidth := 64, videoHeight := 48 } { width := 0, height := 0 }
    "data:image/jpeg;base64,QQ==" resp500W { message := "Unexpected token" }
    rfl rfl (by decide) (by decide) rfl (by decide) rfl rfl rfl rfl

/-- Claim C6: on a parsed `{ok: false, error: "X"}` body, every submit
flow sets the status text to exactly `"❌ X"` when `X` is non-empty, and
to `"❌ "` followed by the flow's fixed fallback string when the `error`
field is absent or empty. -/
theorem error_status_c6
    (env : Env) (s : St) (v : VideoElem) (c0 : CanvasElem) (img : String)
    (resp : HttpResponse) (data : JsonData)
    (hv : s.dom.video = some v) (hc : s.dom.canvas = some c0)
    (hw : v.videoWidth ≠ 0) (hh : v.videoHeight ≠ 0)
    (himg : env.toDataURL v.videoWidth v.videoHeight = img) (hne : img ≠ "")
    (hst : s.dom.statusPresent = true)
    (hfr : env.fetchResult "/api/register-face" img = Except.ok resp)
    (hfv : env.fetchResult "/api/vote-face-verify" img = Except.ok resp)
    (hfl : env.fetchResult "/api/login-face-verify" img = Except.ok resp)
    (hj : resp.jsonBody = Except.ok data)
    (hdok : data.ok = false) :
    (∀ X, data.error = some X → X ≠ "" →
      (captureAndRegister env s).dom.statusText = "❌ " ++ X ∧
      (captureAndVerifyVote env s).dom.statusText = "❌ " ++ X ∧
      (captureAndLogin env s).dom.statusText = "❌ " ++ X) ∧
    (data.error = none ∨ data.error = some "" →
      (captureAndRegister env s).dom.statusText = "❌ Registration failed." ∧
      (captureAndVerifyVote env s).dom.statusText = "❌ Verification failed." ∧
      (captureAndLogin env s).dom.statusText = "❌ Login failed.") := by
  have hcond : (!resp.ok || !data.ok) = true := by simp [hdok]
  have h1 := captureAndRegister_domainError env s v c0 img resp data
    hv hc hw hh himg hne hst hfr hj hcond
  have h2 := captureAndVerifyVote_domainError env s v c0 img resp data
    hv hc hw hh himg hne hst hfv hj hcond
  have h3 := captureAndLogin_domainError env s v c0 img resp data
    hv hc hw hh himg hne hst hfl hj hcond
  constructor
  · intro X hX hXne
    refine ⟨?_, ?_, ?_⟩ <;> simp [h1, h2, h3, jsOrElse, hX, hXne]
  · intro hE
    rcases hE with hE | hE <;> exact ⟨by simp [h1, jsOrElse, hE],
      by simp [h2, jsOrElse, hE], by simp [h3, jsOrElse, hE]⟩

theorem error_status_c6_witness :
    dataErrW.error = some "No match" ∧
    ((captureAndRegister envErrW stLive).dom.statusText = "❌ " ++ "No match" ∧
     (captureAndVerifyVote envErrW stLive).dom.statusText = "❌ " ++ "No match" ∧
     (captureAndLogin envErrW stLive).dom.statusText = "❌ " ++ "No match") :=
  ⟨rfl,
   (error_status_c6 envErrW stLive
      { videoWidth := 64, videoHeight := 48 } { width := 0, height := 0 }
      "data:image/jpeg;base64,QQ==" respErrW dataErrW
      rfl rfl (by decide) (by decide) rfl (by decide) rfl rfl rfl rfl rfl rfl).1
    "No match" rfl (by decide)⟩

/-- Claim C7: on success, `captureAndRegister` schedules the redirect to
`/elections` after exactly 1200 ms and `captureAndLogin` after exactly
1000 ms, while `captureAndVerifyVote` sets the success status, stops the
stream, and schedules no redirect (its trace gains no `scheduleRedirect`
event). -/
theorem redirect_timing_c7
    (env : Env) (s : St) (v : VideoElem) (c0 : CanvasElem) (img : String)
    (stream : MediaStream) (resp : HttpResponse) (data : JsonData)
    (hv : s.dom.video = some v) (hc : s.dom.canvas = some c0)
    (hw : v.videoWidth ≠ 0) (hh : v.videoHeight ≠ 0)
    (himg : env.toDataURL v.videoWidth v.videoHeight = img) (hne : img ≠ "")
    (hst : s.dom.statusPresent = true)
    (hsr : s.streamRef = some stream)
    (hfr : env.fetchResult "/api/register-face" img = Except.ok resp)
    (hfv : env.fetchResult "/api/vote-face-verify" img = Except.ok resp)
    (hfl : env.fetchResult "/api/login-face-verify" img = Except.ok resp)
    (hj : resp.jsonBody = Except.ok data)
    (hok : resp.ok = true) (hdok : data.ok = true) :
    (captureAndRegister env s).trace =
      s.trace ++
        [Event.statusSet "Uploading face for registration...",
         Event.netRequest "/api/register-face" img,
         Event.statusSet "✅ Registration successful! Redirecting..."] ++
        (stopTracks stream.tracks).2 ++
        [Event.scheduleRedirect "/elections" 1200] ∧
    (captureAndLogin env s).trace =
      s.trace ++
        [Event.statusSet "Verifying face for login...",
         Event.netRequest "/api/login-face-verify" img,
         Event.statusSet "✅ Login successful! Redirecting..."] ++
        (stopTracks stream.tracks).2 ++
        [Event.scheduleRedirect "/elections" 1000] ∧
    (captureAndVerifyVote env s).trace =
      s.trace ++
        [Event.statusSet "Verifying face...",
         Event.netRequest "/api/vote-face-verify" img,
         Event.statusSet "✅ Face verified successfully!"] ++
        (stopTracks stream.tracks).2 ∧
    (captureAndVerifyVote env s).dom.statusText = "✅ Face verified successfully!" ∧
    (∀ u d, Event.scheduleRedirect u d ∈ (captureAndVerifyVote env s).trace →
      Event.scheduleRedirect u d ∈ s.trace) := by
  have hreg := captureAndRegister_success env s v c0 img stream resp data
    hv hc hw hh himg hne hst hsr hfr hj hok hdok
  have hlog := captureAndLogin_success env s v c0 img stream resp data
    hv hc hw hh himg hne hst hsr hfl hj hok hdok
  have hver := captureAndVerifyVote_success env s v c0 img stream resp data
    hv hc hw hh himg hne hst hsr hfv hj hok hdok
  refine ⟨by simp [hreg], by simp [hlog], by simp [hver], by simp [hver], ?_⟩
  intro u d hmem
  rw [hver] at hmem
  simp only [List.mem_append, List.mem_cons, List.not_mem_nil, or_false] at hmem
  rcases hmem with (hmem | hmem) | hmem
  · exact hmem
  · simp at hmem
  · rcases stopTracks_events stream.tracks _ hmem with ⟨i, hi⟩
    simp at hi

theorem redirect_timing_c7_witness :
    (captureAndRegister envOkW stLive).trace =
      stLive.trace ++
        [Event.statusSet "Uploading face for registration...",
         Event.netRequest "/api/register-face" "data:image/jpeg;base64,QQ==",
         Event.statusSet "✅ Registration successful! Redirecting..."] ++
        (stopTracks streamW.tracks).2 ++
        [Event.scheduleRedirect "/elections" 1200] ∧
    (captureAndVerifyVote envOkW stLive).trace =
      stLive.trace ++
        [Event.statusSet "Verifying face...",
         Event.netRequest "/api/vote-face-verify" "data:image/jpeg;base64,QQ==",
         Event.statusSet "✅ Face verified successfully!"] ++
        (stopTracks streamW.tracks).2 := by
  have h := redirect_timing_c7 envOkW stLive
    { videoWidth := 64, videoHeight := 48 } { width := 0, height := 0 }
    "data:image/jpeg;base64,QQ==" streamW respOkW { ok := true, error := none }
    rfl rfl (by decide) (by decide) rfl (by decide) rfl rfl rfl rfl rfl rfl rfl rfl
  exact ⟨h.1, h.2.2.1⟩

/-- Claim C4 counterexample: a concrete failing run of `startCamera` —
the stream is acquired but `video.play()` throws — after which the
descriptive failure status is shown, yet the global stream slot holds
the newly acquired stream (it was `none` before the call).  This refutes
the claim that every failure of `startCamera` leaves no stream bound. -/
theorem startCamera_c4_counterexample :
    stNone.streamRef = none ∧
    (startCamera envPlayFail stNone).dom.statusText = "❌ Camera error: play failed" ∧
    (startCamera envPlayFail stNone).streamRef = some streamW :=
  ⟨rfl, rfl, rfl⟩

/-- Claim C4, amended: every failure of `startCamera` reports a
descriptive failure status; for the API-unavailable and `getUserMedia`
failures the stream slot is unchanged (no stream newly bound), but for a
`video.play()` failure the newly acquired stream remains bound in the
slot (the assignment happens before playback is attempted). -/
theorem startCamera_c4_amended
    (env : Env) (s : St) (v : VideoElem)
    (hv : s.dom.video = some v) (hst : s.dom.statusPresent = true) :
    (env.mediaDevicesAvailable = false →
      (startCamera env s).dom.statusText = "Camera not supported in this browser." ∧
      (startCamera env s).streamRef = s.streamRef) ∧
    (∀ e, env.mediaDevicesAvailable = true → env.getUserMedia = Except.error e →
      (startCamera env s).dom.statusText = "❌ Camera error: " ++ e.message ∧
      (startCamera env s).streamRef = s.streamRef) ∧
    (∀ stream e, env.mediaDevicesAvailable = true →
      env.getUserMedia = Except.ok stream → env.playResult = Except.error e →
      (startCamera env s).dom.statusText = "❌ Camera error: " ++ e.message ∧
      (startCamera env s).streamRef = some stream) := by
  refine ⟨fun h => ?_, fun e ha hg => ?_, fun stream e ha hg hp => ?_⟩
  · constructor <;> simp [startCamera, hv, h, setStatus, hst]
  · constructor <;> simp [startCamera, hv, ha, hg, setStatus, logError, hst]
  · constructor <;> simp [startCamera, hv, ha, hg, hp, setStatus, logError, hst]

theorem startCamera_c4_witness :
    (startCamera envPlayFail stNone).dom.statusText =
      "❌ Camera error: " ++ "play failed" ∧
    (startCamera envPlayFail stNone).streamRef = some streamW :=
  (startCamera_c4_amended envPlayFail stNone
    { videoWidth := 64, videoHeight := 48 } rfl rfl).2.2
    streamW { message := "play failed" } rfl rfl rfl

/-- Claim C9 counterexample: `captureImageBase64` with the `canvas`
element absent (video present) hard-aborts — it returns `null` — but
logs no console diagnostic and changes nothing: the returned state is
the input state, whose trace is empty.  This refutes the claim that for
every DOM-reading operation the abort on a missing `video`/`canvas`
element is accompanied by a logged diagnostic. -/
theorem dom_absence_c9_counterexample :
    (captureImageBase64 envW stNoCanvas).1 = none ∧
    (captureImageBase64 envW stNoCanvas).2 = stNoCanvas ∧
    stNoCanvas.trace = [] :=
  ⟨rfl, rfl, rfl⟩

/-- Claim C9, amended: `startCamera` aborts with a logged console
diagnostic when the `video` element is absent; `captureImageBase64`
aborts (returns `null`) when the `video` or `canvas` element is absent
but logs nothing and leaves the state untouched; and absence of the
`status` element suppresses user-visible feedback without aborting —
with no status element, `startCamera` still acquires, binds and plays
the stream to completion, writing no status text. -/
theorem dom_absence_c9_amended (env : Env) (s : St) :
    (s.dom.video = none →
      startCamera env s =
        { s with trace := s.trace ++ [Event.consoleError "Video element not found."] }) ∧
    (s.dom.video = none ∨ s.dom.canvas = none →
      captureImageBase64 env s = (none, s)) ∧
    (∀ v stream, s.dom.statusPresent = false → s.dom.video = some v →
      env.mediaDevicesAvailable = true →
      env.getUserMedia = Except.ok stream → env.playResult = Except.ok () →
      (startCamera env s).streamRef = some stream ∧
      (startCamera env s).dom = s.dom ∧
      (startCamera env s).trace =
        s.trace ++ [Event.bindStream stream.sid, Event.videoPlay]) := by
  refine ⟨fun h => ?_, fun h => ?_, fun v stream hs hv ha hg hp => ?_⟩
  · simp [startCamera, h, logError]
  · rcases h with h | h
    · simp [captureImageBase64, h]
    · rcases hv : s.dom.video with _ | v <;> simp [captureImageBase64, h, hv]
  · refine ⟨?_, ?_, ?_⟩ <;> simp [startCamera, hv, ha, hg, hp, setStatus, hs]

theorem dom_absence_c9_witness :
    stNoVideo.dom.video = none ∧
    startCamera envW stNoVideo =
      { stNoVideo with trace :=
          stNoVideo.trace ++ [Event.consoleError "Video element not found."] } :=
  ⟨rfl, (dom_absence_c9_amended envW stNoVideo).1 rfl⟩

end SecureVote
